import Mathlib

/-!
Shallow embedding of the GigErn backend gig lifecycle (gig routes together with
the Gig and Payment Mongoose models).

Conventions of the embedding:
* MongoDB ObjectIds are modelled as natural numbers (`UserId`, `AppId`), and
  `Date` values as integers (epoch milliseconds).
* JavaScript numbers are modelled as exact rationals; binary floating point
  rounding is outside the scope of this development.
* Each route handler is modelled as a pure function on the fetched `Gig`
  document.  A handler returns the typed response outcome together with the
  state of the gig document after the handler ran (equal to the input document
  whenever nothing was written).  The `internalError` constructor stands for
  the generic 500 response produced by the surrounding catch block.
* Mongoose semantics used by the code and reflected here: document validation
  (required fields, enum and min checks) runs before user defined pre save
  hooks, so a required field that is only assigned inside a pre save hook is
  still absent when validation runs; `save` on an already persisted, valid
  document succeeds.
* express-validator sanitizers: the `trim` sanitizer on the title and message
  fields is omitted (fields are modelled as already trimmed strings); the
  validator chains themselves are translated check for check.
* Descriptive schema fields never read or written by the modelled handlers
  (requirements, skills, reviews, coordinates, isUrgent, paymentStatus,
  cancellation fields, createdAt/updatedAt) are elided from the record.
* Notification creation is fire and forget and out of scope; it is not
  modelled.
-/

abbrev UserId := Nat

abbrev AppId := Nat

/-- `Gig.status` enum: `['open', 'assigned', 'in-progress', 'completed', 'cancelled']`. -/
inductive GigStatus
  | open'
  | assigned
  | inProgress
  | completed
  | cancelled
deriving DecidableEq

/-- Embedded application status enum: `['pending', 'accepted', 'rejected']`. -/
inductive AppStatus
  | pending
  | accepted
  | rejected
deriving DecidableEq

/-- One element of `gig.applications` (embedded subdocument with its own `_id`). -/
structure Application where
  id : AppId
  worker : UserId
  appliedAt : Int
  message : String
  status : AppStatus
deriving DecidableEq

/-- The required parts of the nested `location` object of a gig. -/
structure GigLocation where
  address : String
  city : String
  state : String
  pincode : String
deriving DecidableEq

/-- The Gig document (claim-relevant schema paths of `src/models/Gig.js`). -/
structure Gig where
  id : Nat
  title : String
  description : String
  category : String
  store : UserId
  worker : Option UserId
  location : GigLocation
  startTime : Int
  endTime : Int
  duration : ℚ
  hourlyRate : ℚ
  totalAmount : ℚ
  status : GigStatus
  applications : List Application
  assignedAt : Option Int
  startedAt : Option Int
  completedAt : Option Int
  maxApplications : Nat
  views : Nat
deriving DecidableEq

/-- Typed response outcomes of the gig route handlers.  The constructors map to
the distinct error responses of the handlers: 404 `notFound`, 400 responses for
the open check, the duplicate check, the limit check, validator failures and
wrong-lifecycle-state checks, 403 `forbidden`, and the 500 catch-all
`internalError`. -/
inductive GigError
  | notFound
  | notOpen
  | duplicateApplication
  | applicationLimitReached
  | forbidden
  | invalidTransition
  | validationError
  | internalError
deriving DecidableEq

/-- Response of a gig route handler together with the state of the gig document
after the handler ran. -/
structure OpOutcome where
  response : Except GigError Unit
  gig : Gig

/-- `gigSchema.methods.calculateTotalAmount`:
`this.totalAmount = this.hourlyRate * this.duration`. -/
def calculateTotalAmount (g : Gig) : Gig :=
  { g with totalAmount := g.hourlyRate * g.duration }

/-- `gigSchema.pre('save')`: recompute `totalAmount` when `hourlyRate` or
`duration` was modified on this write. -/
def gigPreSave (g : Gig) (modifiedRateOrDuration : Bool) : Gig :=
  if modifiedRateOrDuration then calculateTotalAmount g else g

/-- A write to a gig document through `save`: mutate `hourlyRate` and/or
`duration` (a `some` value models a modified path) and run the pre save hook. -/
def updateGig (g : Gig) (newRate newDuration : Option ℚ) : Gig :=
  let g1 := { g with
    hourlyRate := newRate.getD g.hourlyRate
    duration := newDuration.getD g.duration }
  gigPreSave g1 (newRate.isSome || newDuration.isSome)

/-- The request body of `POST /` (create gig).  The handler spreads the whole
body into the new document (`{ ...req.body, store, duration }`), so besides the
validated fields a request can also inject other schema paths; the injectable
paths relevant to the claims (`worker`, `status`, `totalAmount`,
`maxApplications`) are included.  `none` models an absent field, and for the
time fields also a string that is not a valid ISO-8601 timestamp. -/
structure CreateGigBody where
  title : Option String
  description : Option String
  category : Option String
  address : Option String
  city : Option String
  state : Option String
  pincode : Option String
  startTime : Option Int
  endTime : Option Int
  hourlyRate : Option ℚ
  worker : Option UserId
  status : Option GigStatus
  totalAmount : Option ℚ
  maxApplications : Option Nat
deriving DecidableEq

/-- The gig category enum of the schema and of the create validator. -/
def gigCategories : List String := ["retail", "delivery", "warehouse", "customer-service", "other"]

/-- `body('title').notEmpty().trim().isLength({ min: 5, max: 100 })`. -/
def validTitle : Option String → Bool
  | none => false
  | some s => decide (s ≠ "") && decide (5 ≤ s.length) && decide (s.length ≤ 100)

/-- `body('description').notEmpty().isLength({ min: 20, max: 1000 })`. -/
def validDescription : Option String → Bool
  | none => false
  | some s => decide (s ≠ "") && decide (20 ≤ s.length) && decide (s.length ≤ 1000)

/-- `body('category').isIn([...])`. -/
def validCategory : Option String → Bool
  | none => false
  | some c => gigCategories.contains c

/-- `body('location.*').notEmpty()`. -/
def validRequired : Option String → Bool
  | none => false
  | some s => decide (s ≠ "")

/-- `body('hourlyRate').isNumeric().isFloat({ min: 50 })`. -/
def validRate : Option ℚ → Bool
  | none => false
  | some r => decide (50 ≤ r)

/-- The whole express-validator chain of `POST /`.  Note that it contains no
comparison between `startTime` and `endTime`: each is only required to be a
valid timestamp on its own. -/
def validateCreateGig (b : CreateGigBody) : Bool :=
  validTitle b.title && validDescription b.description && validCategory b.category &&
  validRequired b.address && validRequired b.city && validRequired b.state &&
  validRequired b.pincode && b.startTime.isSome && b.endTime.isSome &&
  validRate b.hourlyRate

/-- `POST /` (create gig).  After validation the handler builds
`{ ...req.body, store: req.user._id, duration: (endTime - startTime) / (1000*60*60) }`,
saves it, then calls `calculateTotalAmount()` and saves again.  The first save
runs document validation before the pre save hook, so the required
`totalAmount` path must already be present in the body for the save to go
through; otherwise the handler answers with the generic 500. -/
def createGig (b : CreateGigBody) (storeId : UserId) (freshId : Nat) : Except GigError Gig :=
  if validateCreateGig b then
    let st := b.startTime.getD 0
    let et := b.endTime.getD 0
    let g : Gig := {
      id := freshId
      title := b.title.getD ("")
      description := b.description.getD ("")
      category := b.category.getD ("")
      store := storeId
      worker := b.worker
      location := {
        address := b.address.getD ("")
        city := b.city.getD ("")
        state := b.state.getD ("")
        pincode := b.pincode.getD ("") }
      startTime := st
      endTime := et
      duration := ((et - st : Int) : ℚ) / (1000 * 60 * 60)
      hourlyRate := b.hourlyRate.getD 0
      totalAmount := b.totalAmount.getD 0
      status := b.status.getD .open'
      applications := []
      assignedAt := none
      startedAt := none
      completedAt := none
      maxApplications := b.maxApplications.getD 10
      views := 0 }
    if b.totalAmount.isSome then
      .ok (calculateTotalAmount g)
    else
      .error .internalError
  else .error .validationError

/-- `body('message').optional().isLength({ max: 500 })` of `POST /:id/apply`. -/
def validApplyMessage : Option String → Bool
  | none => true
  | some s => decide (s.length ≤ 500)

/-- `POST /:id/apply` (worker applies for a gig).  Checks in handler order:
message validator, open status, duplicate application by the same worker
(whatever its status), application limit (`length >= maxApplications` on the
raw array), then appends a pending application. -/
def applyForGig (g : Gig) (workerId : UserId) (message : Option String) (now : Int)
    (freshId : AppId) : OpOutcome :=
  if !(validApplyMessage message) then ⟨.error .validationError, g⟩
  else if g.status ≠ .open' then ⟨.error .notOpen, g⟩
  else if g.applications.any (fun a => a.worker == workerId) then
    ⟨.error .duplicateApplication, g⟩
  else if g.maxApplications ≤ g.applications.length then
    ⟨.error .applicationLimitReached, g⟩
  else
    ⟨.ok (), { g with applications := g.applications ++
      [{ id := freshId, worker := workerId, appliedAt := now,
         message := message.getD (""), status := .pending }] }⟩

/-- The `action` body field of `PUT /:id/applications/:applicationId`; the
validator `isIn(['accept', 'reject'])` makes any other value a 400, so the
type only has these two values. -/
inductive ResolveAction
  | accept
  | reject
deriving DecidableEq

/-- Set the status of the first application with the given subdocument id
(`gig.applications.id(applicationId)` returns the first match, and the handler
assigns its `status` in place). -/
def setFirstStatus (targetId : AppId) (s : AppStatus) : List Application → List Application
  | [] => []
  | a :: rest =>
    if a.id = targetId then { a with status := s } :: rest
    else a :: setFirstStatus targetId s rest

/-- The `forEach` of the accept branch: every application whose `_id` differs
from the resolved one is forced to `rejected`. -/
def rejectOthers (targetId : AppId) (apps : List Application) : List Application :=
  apps.map fun a => if a.id = targetId then a else { a with status := .rejected }

/-- `PUT /:id/applications/:applicationId` (store accepts or rejects one
application).  Checks in handler order: ownership, application lookup; then on
`accept` it assigns the worker, sets status `assigned` and `assignedAt`, marks
the application accepted and rejects every other application; on `reject` it
only marks the application rejected.  Note the handler never inspects
`gig.status`. -/
def resolveApplication (g : Gig) (applicationId : AppId) (callerId : UserId)
    (action : ResolveAction) (now : Int) : OpOutcome :=
  if g.store ≠ callerId then ⟨.error .forbidden, g⟩
  else
    match g.applications.find? (fun a => a.id == applicationId) with
    | none => ⟨.error .notFound, g⟩
    | some application =>
      match action with
      | .accept =>
        ⟨.ok (), { g with
          worker := some application.worker
          status := .assigned
          assignedAt := some now
          applications :=
            rejectOthers applicationId
              (setFirstStatus applicationId .accepted g.applications) }⟩
      | .reject =>
        ⟨.ok (), { g with
          applications := setFirstStatus applicationId .rejected g.applications }⟩

/-- `PUT /:id/start` (worker starts an assigned gig).  The handler evaluates
`gig.worker.toString()` before the status check; when `worker` is null this
throws a TypeError that the catch block turns into the generic 500. -/
def startGig (g : Gig) (callerId : UserId) (now : Int) : OpOutcome :=
  match g.worker with
  | none => ⟨.error .internalError, g⟩
  | some w =>
    if w ≠ callerId then ⟨.error .forbidden, g⟩
    else if g.status ≠ .assigned then ⟨.error .invalidTransition, g⟩
    else ⟨.ok (), { g with status := .inProgress, startedAt := some now }⟩

/-- `Payment.status` enum. -/
inductive PaymentStatus
  | pending
  | processing
  | completed
  | failed
  | refunded
deriving DecidableEq

/-- `Payment.paymentMethod` enum: `['bank_transfer', 'upi', 'wallet']`. -/
inductive PaymentMethod
  | bank_transfer
  | upi
  | wallet
deriving DecidableEq

/-- The Payment document of `src/models/Payment.js`.  `platformFee`,
`workerAmount` and `paymentMethod` are `Option`s because a freshly constructed
document can lack them; all three are `required` schema paths. -/
structure Payment where
  gig : Nat
  store : UserId
  worker : UserId
  amount : ℚ
  platformFee : Option ℚ
  workerAmount : Option ℚ
  paymentMethod : Option PaymentMethod
  status : PaymentStatus
deriving DecidableEq

/-- Mongoose document validation of a Payment: `amount`, `platformFee` and
`workerAmount` are required with `min: 0`, and `paymentMethod` is required. -/
def paymentValidate (p : Payment) : Bool :=
  decide (0 ≤ p.amount) &&
  (match p.platformFee with
    | some f => decide (0 ≤ f)
    | none => false) &&
  (match p.workerAmount with
    | some w => decide (0 ≤ w)
    | none => false) &&
  p.paymentMethod.isSome

/-- `paymentSchema.pre('save')`: on a write that modified `amount` (always true
for a new document) set `platformFee = amount * 0.1` and
`workerAmount = amount - platformFee`. -/
def paymentPreSave (p : Payment) : Payment :=
  { p with
    platformFee := some (p.amount * (1 / 10))
    workerAmount := some (p.amount - p.amount * (1 / 10)) }

/-- `payment.save()` on a newly constructed document: document validation runs
before the user pre save hook, so a document failing validation is rejected
before the hook can fill in the fee fields. -/
def savePaymentNew (p : Payment) : Except Unit Payment :=
  if paymentValidate p then .ok (paymentPreSave p) else .error ()

/-- Response, gig state and created payment (if any) of `PUT /:id/complete`. -/
structure CompleteOutcome where
  response : Except GigError Unit
  gig : Gig
  payment : Option Payment

/-- `PUT /:id/complete` (worker completes an in-progress gig).  As in
`startGig`, a null `worker` is dereferenced before any other check.  The gig is
saved as `completed` first; only then is
`new Payment({ gig, store, worker, amount: gig.totalAmount })` constructed --
with no `paymentMethod` -- and saved, so a failure of that save still leaves
the gig completed while the handler answers with the generic 500. -/
def completeGig (g : Gig) (callerId : UserId) (now : Int) : CompleteOutcome :=
  match g.worker with
  | none => ⟨.error .internalError, g, none⟩
  | some w =>
    if w ≠ callerId then ⟨.error .forbidden, g, none⟩
    else if g.status ≠ .inProgress then ⟨.error .invalidTransition, g, none⟩
    else
      let g1 := { g with status := .completed, completedAt := some now }
      match savePaymentNew
        { gig := g.id, store := g.store, worker := w, amount := g1.totalAmount,
          platformFee := none, workerAmount := none, paymentMethod := none,
          status := .pending } with
      | .ok p => ⟨.ok (), g1, some p⟩
      | .error _ => ⟨.error .internalError, g1, none⟩

/-- Gig documents reachable through the public lifecycle operations, starting
from a create request that does not inject the `worker` or `status` schema
paths through the body spread.  Failed operations leave the document unchanged,
so every post-state of every operation is included unconditionally. -/
inductive ReachableGig : Gig → Prop
  | created (b : CreateGigBody) (storeId : UserId) (freshId : Nat) (g : Gig) :
      b.worker = none → b.status = none → createGig b storeId freshId = .ok g →
      ReachableGig g
  | applied (g : Gig) (workerId : UserId) (message : Option String) (now : Int)
      (freshId : AppId) : ReachableGig g →
      ReachableGig (applyForGig g workerId message now freshId).gig
  | resolved (g : Gig) (applicationId : AppId) (callerId : UserId)
      (action : ResolveAction) (now : Int) : ReachableGig g →
      ReachableGig (resolveApplication g applicationId callerId action now).gig
  | started (g : Gig) (callerId : UserId) (now : Int) : ReachableGig g →
      ReachableGig (startGig g callerId now).gig
  | completedStep (g : Gig) (callerId : UserId) (now : Int) : ReachableGig g →
      ReachableGig (completeGig g callerId now).gig

/-- Number of applications in the list carrying the given status. -/
def countStatus (s : AppStatus) (l : List Application) : Nat :=
  l.countP (fun a => decide (a.status = s))

/-- The per-element effect of the accept branch on the application list: the
resolved id becomes `accepted`, every other application becomes `rejected`. -/
def acceptMark (targetId : AppId) (a : Application) : Application :=
  if a.id = targetId then { a with status := .accepted }
  else { a with status := .rejected }

/-- The bad-input predicate of claim C9, written from the spec sentence
(required fields missing, category outside the enumerated set, hourlyRate below
50, start or end time not a valid timestamp); the order comparison between the
two timestamps is deliberately not part of it. -/
def specBadCreateInput (b : CreateGigBody) : Bool :=
  b.title.isNone || b.description.isNone || b.category.isNone ||
  b.address.isNone || b.city.isNone || b.state.isNone || b.pincode.isNone ||
  b.startTime.isNone || b.endTime.isNone || b.hourlyRate.isNone ||
  (match b.category with
    | some c => !(gigCategories.contains c)
    | none => true) ||
  (match b.hourlyRate with
    | some r => decide (r < 50)
    | none => true)

/-! Concrete documents and request bodies used by the per-claim witnesses and
counterexamples. -/

/-- A concrete location literal. -/
def demoLoc : GigLocation :=
  { address := "12 MG Road", city := "Pune", state := "MH", pincode := "411001" }

/-- A concrete gig document builder: three hours at rate 100 with the given
ownership, status, applications and application limit. -/
def mkGig (storeId : UserId) (w : Option UserId) (st : GigStatus)
    (apps : List Application) (maxA : Nat) : Gig :=
  { id := 1
    title := "Stock shelves over the weekend"
    description := "Help our store restock shelves and arrange the backroom."
    category := "retail"
    store := storeId
    worker := w
    location := demoLoc
    startTime := 0
    endTime := 10800000
    duration := 3
    hourlyRate := 100
    totalAmount := 300
    status := st
    applications := apps
    assignedAt := none
    startedAt := none
    completedAt := none
    maxApplications := maxA
    views := 0 }

/-- A concrete embedded application literal. -/
def mkApp (i : AppId) (w : UserId) (s : AppStatus) : Application :=
  { id := i, worker := w, appliedAt := 0, message := "", status := s }

/-- C1 concrete input: an open gig of store 7 with three pending applications. -/
def c1gig : Gig :=
  mkGig 7 none .open' [mkApp 0 10 .pending, mkApp 1 11 .pending, mkApp 2 12 .pending] 10

/-- C2 concrete input: an open gig of store 1 with two pending applications. -/
def c2gig : Gig :=
  mkGig 1 none .open' [mkApp 0 10 .pending, mkApp 1 11 .pending] 10

/-- C2 witness input: a gig already assigned to worker 10 after a first accept. -/
def c2agig : Gig :=
  mkGig 7 (some 10) .assigned [mkApp 0 10 .accepted, mkApp 1 11 .rejected] 10

/-- C3 concrete input: an in-progress gig assigned to worker 11, total 300. -/
def c3gig : Gig :=
  mkGig 7 (some 11) .inProgress [mkApp 0 11 .accepted] 10

/-- C4 concrete create request: a fully valid body (whose spread also carries a
`totalAmount` value, as the first save requires). -/
def c4body : CreateGigBody :=
  { title := some "Weekend retail help needed"
    description := some "Help our store restock shelves and arrange the backroom."
    category := some "retail"
    address := some "12 MG Road"
    city := some "Pune"
    state := some "MH"
    pincode := some "411001"
    startTime := some 0
    endTime := some 10800000
    hourlyRate := some 100
    worker := none
    status := none
    totalAmount := some 1
    maxApplications := none }

/-- The gig document produced by the C4 concrete create request. -/
def c4gig : Gig :=
  (createGig c4body 7 1).toOption.getD (mkGig 7 none .open' [] 10)

/-- C5 counterexample request: the same valid body with the `worker` schema
path injected through the body spread. -/
def c5body : CreateGigBody :=
  { c4body with worker := some 42 }

/-- The gig document produced by the C5 counterexample request. -/
def c5gig : Gig :=
  (createGig c5body 7 1).toOption.getD (mkGig 7 none .open' [] 10)

/-- C5 witness request: a valid body injecting neither `worker` nor `status`. -/
def c5okbody : CreateGigBody :=
  { title := some "Weekend delivery rider wanted"
    description := some "Deliver packages across the city during the weekend."
    category := some "delivery"
    address := some "4 FC Road"
    city := some "Pune"
    state := some "MH"
    pincode := some "411004"
    startTime := some 0
    endTime := some 7200000
    hourlyRate := some 80
    worker := none
    status := none
    totalAmount := some 1
    maxApplications := none }

/-- The gig document produced by the C5 witness request. -/
def c5okgig : Gig :=
  (createGig c5okbody 7 2).toOption.getD (mkGig 7 none .open' [] 10)

/-- C6 concrete input: a cancelled gig whose worker field still holds 11. -/
def c6gig : Gig :=
  mkGig 7 (some 11) .cancelled [] 10

/-- C7 counterexample input: an assigned gig that still contains a pending
application by worker 5. -/
def c7gig : Gig :=
  mkGig 7 (some 10) .assigned [mkApp 0 5 .pending] 10

/-- C7 witness input: an open gig with an already rejected application by
worker 5. -/
def c7wgig : Gig :=
  mkGig 7 none .open' [mkApp 0 5 .rejected] 10

/-- C8 concrete input: an open gig whose application array is at its limit of
2, both applications already rejected. -/
def c8gig : Gig :=
  mkGig 7 none .open' [mkApp 0 20 .rejected, mkApp 1 21 .rejected] 2

/-- C9 counterexample request: every validated field is fine but the end time
lies an hour before the start time. -/
def c9body : CreateGigBody :=
  { title := some "Morning warehouse shift"
    description := some "Move incoming pallets and keep the aisles clear."
    category := some "warehouse"
    address := some "Plot 9, MIDC"
    city := some "Pune"
    state := some "MH"
    pincode := some "411026"
    startTime := some 7200000
    endTime := some 3600000
    hourlyRate := some 50
    worker := none
    status := none
    totalAmount := some 50
    maxApplications := none }

/-- The gig document produced by the C9 counterexample request. -/
def c9gig : Gig :=
  (createGig c9body 7 3).toOption.getD (mkGig 7 none .open' [] 10)

/-- C9 witness request: valid except that the hourly rate is below 50. -/
def c9wbody : CreateGigBody :=
  { c9body with hourlyRate := some 10 }

/-- C10 concrete input: an open gig that has no worker yet. -/
def c10gig : Gig :=
  mkGig 7 none .open' [] 10

/-! Helper lemmas about the application-list transforms of the accept branch. -/

theorem no_id_match_of_not_mem {aid : AppId} {l : List Application}
    (h : aid ∉ l.map (fun a => a.id)) : ∀ x ∈ l, x.id ≠ aid :=
  fun x hx heq => h (List.mem_map.mpr ⟨x, hx, heq⟩)

theorem acceptMark_id (tid : AppId) (a : Application) : (acceptMark tid a).id = a.id := by
  unfold acceptMark
  split <;> rfl

theorem rejectOthers_no_match (tid : AppId) (l : List Application)
    (h : ∀ x ∈ l, x.id ≠ tid) :
    rejectOthers tid l = l.map (fun a => { a with status := AppStatus.rejected }) := by
  unfold rejectOthers
  exact List.map_congr_left fun x hx => by rw [if_neg (h x hx)]

theorem acceptMark_no_match (tid : AppId) (l : List Application)
    (h : ∀ x ∈ l, x.id ≠ tid) :
    l.map (acceptMark tid) = l.map (fun a => { a with status := AppStatus.rejected }) :=
  List.map_congr_left fun x hx => by unfold acceptMark; rw [if_neg (h x hx)]

theorem accept_resolve_eq_map (tid : AppId) (l : List Application) :
    (l.map (fun a => a.id)).Nodup →
    rejectOthers tid (setFirstStatus tid .accepted l) = l.map (acceptMark tid) := by
  induction l with
  | nil => intro _; rfl
  | cons a l ih =>
    intro hnd
    rw [List.map_cons, List.nodup_cons] at hnd
    obtain ⟨hna, hnd⟩ := hnd
    by_cases hid : a.id = tid
    · have hrest : ∀ x ∈ l, x.id ≠ tid := no_id_match_of_not_mem (hid ▸ hna)
      calc rejectOthers tid (setFirstStatus tid .accepted (a :: l))
          = rejectOthers tid ({ a with status := AppStatus.accepted } :: l) := by
            simp only [setFirstStatus, if_pos hid]
        _ = { a with status := AppStatus.accepted } :: rejectOthers tid l := by
            simp only [rejectOthers, List.map_cons]
            rw [if_pos (show ({ a with status := AppStatus.accepted } : Application).id = tid from hid)]
        _ = { a with status := AppStatus.accepted } ::
              l.map (fun x => { x with status := AppStatus.rejected }) := by
            rw [rejectOthers_no_match tid l hrest]
        _ = (a :: l).map (acceptMark tid) := by
            rw [List.map_cons]
            congr 1
            · unfold acceptMark
              rw [if_pos hid]
            · rw [acceptMark_no_match tid l hrest]
    · calc rejectOthers tid (setFirstStatus tid .accepted (a :: l))
          = rejectOthers tid (a :: setFirstStatus tid .accepted l) := by
            simp only [setFirstStatus, if_neg hid]
        _ = { a with status := AppStatus.rejected } ::
              rejectOthers tid (setFirstStatus tid .accepted l) := by
            simp only [rejectOthers, List.map_cons]
            rw [if_neg hid]
        _ = (a :: l).map (acceptMark tid) := by
            rw [List.map_cons]
            congr 1
            · unfold acceptMark
              rw [if_neg hid]
            · exact ih hnd

theorem countStatus_cons (s : AppStatus) (a : Application) (l : List Application) :
    countStatus s (a :: l) = countStatus s l + (if a.status = s then 1 else 0) := by
  simp [countStatus, List.countP_cons]

theorem countStatus_accepted_all_rejected (l : List Application) :
    countStatus .accepted (l.map (fun a => { a with status := AppStatus.rejected })) = 0 := by
  induction l with
  | nil => rfl
  | cons a l ih => simp [List.map_cons, countStatus_cons, ih]

theorem countStatus_rejected_all_rejected (l : List Application) :
    countStatus .rejected (l.map (fun a => { a with status := AppStatus.rejected })) = l.length := by
  induction l with
  | nil => rfl
  | cons a l ih => simp [List.map_cons, countStatus_cons, ih]

theorem countStatus_accepted_acceptMark (tid : AppId) (l : List Application) (t : Application)
    (hid : t.id = tid) :
    (l.map (fun a => a.id)).Nodup → t ∈ l →
    countStatus .accepted (l.map (acceptMark tid)) = 1 := by
  induction l with
  | nil => intro _ ht; cases ht
  | cons a l ih =>
    intro hnd ht
    rw [List.map_cons, List.nodup_cons] at hnd
    obtain ⟨hna, hnd⟩ := hnd
    rw [List.map_cons, countStatus_cons]
    rcases List.mem_cons.mp ht with rfl | htl
    · have hrest : ∀ x ∈ l, x.id ≠ tid := no_id_match_of_not_mem (hid ▸ hna)
      rw [acceptMark_no_match tid l hrest, countStatus_accepted_all_rejected]
      unfold acceptMark
      rw [if_pos hid]
      simp
    · have hne : a.id ≠ tid := fun h => hna (List.mem_map.mpr ⟨t, htl, hid.trans h.symm⟩)
      rw [ih hnd htl]
      unfold acceptMark
      rw [if_neg hne]
      simp

theorem countStatus_rejected_acceptMark (tid : AppId) (l : List Application) (t : Application)
    (hid : t.id = tid) :
    (l.map (fun a => a.id)).Nodup → t ∈ l →
    countStatus .rejected (l.map (acceptMark tid)) = l.length - 1 := by
  induction l with
  | nil => intro _ ht; cases ht
  | cons a l ih =>
    intro hnd ht
    rw [List.map_cons, List.nodup_cons] at hnd
    obtain ⟨hna, hnd⟩ := hnd
    rw [List.map_cons, countStatus_cons]
    rcases List.mem_cons.mp ht with rfl | htl
    · have hrest : ∀ x ∈ l, x.id ≠ tid := no_id_match_of_not_mem (hid ▸ hna)
      rw [acceptMark_no_match tid l hrest, countStatus_rejected_all_rejected]
      unfold acceptMark
      rw [if_pos hid]
      simp
    · have hne : a.id ≠ tid := fun h => hna (List.mem_map.mpr ⟨t, htl, hid.trans h.symm⟩)
      have hlen : 0 < l.length := List.length_pos.mpr (List.ne_nil_of_mem htl)
      rw [ih hnd htl]
      unfold acceptMark
      rw [if_neg hne]
      simp only [List.length_cons]
      simp
      omega

theorem find?_id_of_nodup (l : List Application) (t : Application) (aid : AppId)
    (hid : t.id = aid) :
    (l.map (fun a => a.id)).Nodup → t ∈ l →
    l.find? (fun a => a.id == aid) = some t := by
  induction l with
  | nil => intro _ ht; cases ht
  | cons a l ih =>
    intro hnd ht
    rw [List.map_cons, List.nodup_cons] at hnd
    obtain ⟨hna, hnd⟩ := hnd
    rcases List.mem_cons.mp ht with rfl | htl
    · exact List.find?_cons_of_pos _ (by simp [hid])
    · have hne : a.id ≠ aid := fun h => hna (List.mem_map.mpr ⟨t, htl, hid.trans h.symm⟩)
      rw [List.find?_cons_of_neg _ (by simp [hne])]
      exact ih hnd htl

theorem find?_map_acceptMark (tid aid : AppId) (l : List Application) :
    (l.map (acceptMark tid)).find? (fun a => a.id == aid) =
      (l.find? (fun a => a.id == aid)).map (acceptMark tid) := by
  induction l with
  | nil => rfl
  | cons a l ih =>
    rw [List.map_cons]
    simp only [List.find?, acceptMark_id]
    cases h : (a.id == aid)
    · simp only [h]
      exact ih
    · simp only [h]
      rfl

/-- C1: a successful accept by the owning store on an open gig with N pending
applications leaves exactly one accepted application (the resolved one), N - 1
rejected ones, status `assigned`, `assignedAt` set, and the accepted
application's worker as `gig.worker`. -/
theorem C1_accept_one_accepted_rest_rejected (g : Gig) (t : Application) (aid : AppId)
    (caller : UserId) (now : Int)
    (hopen : g.status = .open')
    (hpending : ∀ a ∈ g.applications, a.status = .pending)
    (hcaller : caller = g.store)
    (hnd : (g.applications.map (fun a => a.id)).Nodup)
    (ht : t ∈ g.applications) (hid : t.id = aid) :
    (resolveApplication g aid caller .accept now).response = .ok () ∧
    (resolveApplication g aid caller .accept now).gig.status = .assigned ∧
    (resolveApplication g aid caller .accept now).gig.worker = some t.worker ∧
    (resolveApplication g aid caller .accept now).gig.assignedAt = some now ∧
    countStatus .accepted (resolveApplication g aid caller .accept now).gig.applications = 1 ∧
    countStatus .rejected (resolveApplication g aid caller .accept now).gig.applications =
      g.applications.length - 1 ∧
    ((resolveApplication g aid caller .accept now).gig.applications.find?
        (fun a => a.id == aid)).map Application.status = some AppStatus.accepted := by
  have hfind : g.applications.find? (fun a => a.id == aid) = some t :=
    find?_id_of_nodup g.applications t aid hid hnd ht
  have hstore : ¬ (g.store ≠ caller) := by simp [hcaller]
  have hres : resolveApplication g aid caller .accept now =
      ⟨.ok (), { g with
        worker := some t.worker
        status := .assigned
        assignedAt := some now
        applications := rejectOthers aid (setFirstStatus aid .accepted g.applications) }⟩ := by
    unfold resolveApplication
    rw [if_neg hstore, hfind]
  rw [hres]
  refine ⟨rfl, rfl, rfl, rfl, ?_, ?_, ?_⟩
  · rw [show ({ g with
        worker := some t.worker
        status := GigStatus.assigned
        assignedAt := some now
        applications := rejectOthers aid (setFirstStatus aid .accepted g.applications) } :
          Gig).applications = rejectOthers aid (setFirstStatus aid .accepted g.applications)
      from rfl]
    rw [accept_resolve_eq_map aid g.applications hnd]
    exact countStatus_accepted_acceptMark aid g.applications t hid hnd ht
  · rw [show ({ g with
        worker := some t.worker
        status := GigStatus.assigned
        assignedAt := some now
        applications := rejectOthers aid (setFirstStatus aid .accepted g.applications) } :
          Gig).applications = rejectOthers aid (setFirstStatus aid .accepted g.applications)
      from rfl]
    rw [accept_resolve_eq_map aid g.applications hnd]
    exact countStatus_rejected_acceptMark aid g.applications t hid hnd ht
  · rw [show ({ g with
        worker := some t.worker
        status := GigStatus.assigned
        assignedAt := some now
        applications := rejectOthers aid (setFirstStatus aid .accepted g.applications) } :
          Gig).applications = rejectOthers aid (setFirstStatus aid .accepted g.applications)
      from rfl]
    rw [accept_resolve_eq_map aid g.applications hnd, find?_map_acceptMark, hfind]
    simp [acceptMark, hid]

/-- Witness for C1 at a concrete open gig of store 7 with three pending
applications, accepting the application of worker 11. -/
theorem C1_accept_one_accepted_rest_rejected_witness :
    (resolveApplication c1gig 1 7 .accept 99).response = .ok () ∧
    (resolveApplication c1gig 1 7 .accept 99).gig.status = .assigned ∧
    (resolveApplication c1gig 1 7 .accept 99).gig.worker = some 11 ∧
    (resolveApplication c1gig 1 7 .accept 99).gig.assignedAt = some 99 ∧
    countStatus .accepted (resolveApplication c1gig 1 7 .accept 99).gig.applications = 1 ∧
    countStatus .rejected (resolveApplication c1gig 1 7 .accept 99).gig.applications = 2 ∧
    ((resolveApplication c1gig 1 7 .accept 99).gig.applications.find?
        (fun a => a.id == 1)).map Application.status = some AppStatus.accepted :=
  C1_accept_one_accepted_rest_rejected c1gig (mkApp 1 11 .pending) 1 7 99 rfl
    (by decide) rfl (by decide) (by decide) rfl

/-- C2 (counterexample): on a concrete open gig with two pending applications,
accepting application 0 succeeds and assigns worker 10; a second accept for
application 1 on the resulting assigned gig does not fail with
`invalidTransition` but succeeds as well, overwriting the worker with 11. -/
theorem C2_counterexample :
    (resolveApplication c2gig 0 1 .accept 3).response = .ok () ∧
    (resolveApplication c2gig 0 1 .accept 3).gig.worker = some 10 ∧
    (resolveApplication c2gig 0 1 .accept 3).gig.status = .assigned ∧
    (resolveApplication (resolveApplication c2gig 0 1 .accept 3).gig 1 1 .accept 5).response =
      .ok () ∧
    (resolveApplication (resolveApplication c2gig 0 1 .accept 3).gig 1 1 .accept 5).gig.worker =
      some 11 ∧
    (resolveApplication (resolveApplication c2gig 0 1 .accept 3).gig 1 1 .accept 5).gig.status =
      .assigned :=
  ⟨rfl, rfl, rfl, rfl, rfl, rfl⟩

/-- C2 (amended): `resolveApplication` contains no status guard at all, so an
accept by the owning store succeeds on a gig that is already `assigned`,
overwriting `gig.worker` with the worker of the newly resolved application
instead of failing with `invalidTransition`. -/
theorem C2_accept_has_no_status_guard (g : Gig) (aid : AppId) (caller : UserId)
    (t : Application) (now : Int)
    (hcaller : caller = g.store)
    (hassigned : g.status = .assigned)
    (hfind : g.applications.find? (fun a => a.id == aid) = some t) :
    (resolveApplication g aid caller .accept now).response = .ok () ∧
    (resolveApplication g aid caller .accept now).gig.worker = some t.worker ∧
    (resolveApplication g aid caller .accept now).gig.status = .assigned := by
  have hstore : ¬ (g.store ≠ caller) := by simp [hcaller]
  have hres : resolveApplication g aid caller .accept now =
      ⟨.ok (), { g with
        worker := some t.worker
        status := .assigned
        assignedAt := some now
        applications := rejectOthers aid (setFirstStatus aid .accepted g.applications) }⟩ := by
    unfold resolveApplication
    rw [if_neg hstore, hfind]
  rw [hres]
  exact ⟨rfl, rfl, rfl⟩

/-- Witness for the amended C2 at a concrete gig already assigned to worker 10:
accepting the rejected application of worker 11 succeeds and reassigns. -/
theorem C2_accept_has_no_status_guard_witness :
    (resolveApplication c2agig 1 7 .accept 50).response = .ok () ∧
    (resolveApplication c2agig 1 7 .accept 50).gig.worker = some 11 ∧
    (resolveApplication c2agig 1 7 .accept 50).gig.status = .assigned :=
  C2_accept_has_no_status_guard c2agig 1 7 (mkApp 1 11 .rejected) 50 rfl rfl rfl

/-- C3 (code bug, evaluated at its failing input): completing an in-progress
gig marks the gig `completed` but the Payment save is rejected by document
validation (`paymentMethod` is required and never supplied; `platformFee` and
`workerAmount` are required but only assigned in the pre save hook, which runs
after validation), so no Payment record is created and the handler answers
with the generic 500. -/
theorem C3_complete_never_creates_payment :
    c3gig.status = .inProgress ∧
    c3gig.worker = some 11 ∧
    (completeGig c3gig 11 99).gig.status = .completed ∧
    (completeGig c3gig 11 99).payment = none ∧
    (completeGig c3gig 11 99).response = .error .internalError :=
  ⟨rfl, rfl, rfl, rfl, rfl⟩

/-- C6: with the caller being the assigned worker, `startGig` fails with
`invalidTransition` whenever the status is not `assigned` and `completeGig`
fails with `invalidTransition` whenever the status is not `in-progress`; in
both cases the gig document is unchanged and no payment is created. -/
theorem C6_wrong_state_fails_invalid_transition (g : Gig) (caller : UserId) (now : Int)
    (hworker : g.worker = some caller) :
    (g.status ≠ .assigned →
      (startGig g caller now).response = .error .invalidTransition ∧
      (startGig g caller now).gig = g) ∧
    (g.status ≠ .inProgress →
      (completeGig g caller now).response = .error .invalidTransition ∧
      (completeGig g caller now).gig = g ∧
      (completeGig g caller now).payment = none) := by
  have hself : ¬ (caller ≠ caller) := fun h => h rfl
  constructor
  · intro hs
    have hred : startGig g caller now = ⟨.error .invalidTransition, g⟩ := by
      simp only [startGig, hworker]
      rw [if_neg hself, if_pos hs]
    rw [hred]
    exact ⟨rfl, rfl⟩
  · intro hc
    have hred : completeGig g caller now = ⟨.error .invalidTransition, g, none⟩ := by
      simp only [completeGig, hworker]
      rw [if_neg hself, if_pos hc]
    rw [hred]
    exact ⟨rfl, rfl, rfl⟩

/-- Witness for C6 at a concrete cancelled gig whose worker field holds the
caller. -/
theorem C6_wrong_state_fails_invalid_transition_witness :
    ((startGig c6gig 11 0).response = .error .invalidTransition ∧
      (startGig c6gig 11 0).gig = c6gig) ∧
    ((completeGig c6gig 11 0).response = .error .invalidTransition ∧
      (completeGig c6gig 11 0).gig = c6gig ∧
      (completeGig c6gig 11 0).payment = none) :=
  ⟨(C6_wrong_state_fails_invalid_transition c6gig 11 0 rfl).1 (by decide),
    (C6_wrong_state_fails_invalid_transition c6gig 11 0 rfl).2 (by decide)⟩

/-- C7 (counterexample): on a concrete gig that is no longer open but still
holds a pending application by worker 5, a second apply by worker 5 fails with
`notOpen` -- the open check runs before the duplicate check -- not with
`duplicateApplication` as the claim states for every gig. -/
theorem C7_counterexample :
    (applyForGig c7gig 5 none 9 99).response = .error .notOpen ∧
    (applyForGig c7gig 5 none 9 99).gig = c7gig ∧
    GigError.notOpen ≠ GigError.duplicateApplication ∧
    (c7gig.applications.any (fun a => a.worker == 5)) = true :=
  ⟨rfl, rfl, by decide, rfl⟩

/-- C7 (amended): on an *open* gig, a worker with an existing application --
whatever that application's status -- gets `duplicateApplication` and nothing
is appended; on a non-open gig the call fails earlier with the open check, and
in no case is the document changed. -/
theorem C7_amended_duplicate_on_open_gig (g : Gig) (w : UserId) (m : Option String)
    (now : Int) (freshId : AppId)
    (hmsg : validApplyMessage m = true)
    (hopen : g.status = .open')
    (hdup : (g.applications.any (fun a => a.worker == w)) = true) :
    (applyForGig g w m now freshId).response = .error .duplicateApplication ∧
    (applyForGig g w m now freshId).gig = g := by
  have hred : applyForGig g w m now freshId = ⟨.error .duplicateApplication, g⟩ := by
    simp [applyForGig, hmsg, hopen, hdup]
  rw [hred]
  exact ⟨rfl, rfl⟩

/-- Witness for the amended C7 at a concrete open gig holding an already
rejected application by worker 5. -/
theorem C7_amended_duplicate_on_open_gig_witness :
    (applyForGig c7wgig 5 none 9 99).response = .error .duplicateApplication ∧
    (applyForGig c7wgig 5 none 9 99).gig = c7wgig :=
  C7_amended_duplicate_on_open_gig c7wgig 5 none 9 99 rfl rfl rfl

/-- C8: applying as a new worker to an open gig whose raw application array
has length equal to `maxApplications` fails with `applicationLimitReached` and
leaves the document unchanged; the count is over the raw array irrespective of
application statuses. -/
theorem C8_limit_counts_raw_array (g : Gig) (w : UserId) (m : Option String)
    (now : Int) (freshId : AppId)
    (hmsg : validApplyMessage m = true)
    (hopen : g.status = .open')
    (hnodup : (g.applications.any (fun a => a.worker == w)) = false)
    (hlen : g.applications.length = g.maxApplications) :
    (applyForGig g w m now freshId).response = .error .applicationLimitReached ∧
    (applyForGig g w m now freshId).gig = g := by
  have hred : applyForGig g w m now freshId = ⟨.error .applicationLimitReached, g⟩ := by
    simp [applyForGig, hmsg, hopen, hnodup, hlen]
  rw [hred]
  exact ⟨rfl, rfl⟩

/-- Witness for C8 at a concrete open gig with `maxApplications = 2` whose two
applications are both already rejected. -/
theorem C8_limit_counts_raw_array_witness :
    (applyForGig c8gig 5 none 9 99).response = .error .applicationLimitReached ∧
    (applyForGig c8gig 5 none 9 99).gig = c8gig :=
  C8_limit_counts_raw_array c8gig 5 none 9 99 rfl rfl rfl rfl

/-- C10: on any gig whose worker field is null, both `startGig` and
`completeGig` fail with the generic internal failure -- the null worker is
dereferenced before the ownership and status guards -- and not with a typed
`forbidden` or `invalidTransition`; the gig is unchanged and no payment is
created. -/
theorem C10_null_worker_internal_error (g : Gig) (caller : UserId) (now : Int)
    (hworker : g.worker = none) :
    (startGig g caller now).response = .error .internalError ∧
    (startGig g caller now).gig = g ∧
    (completeGig g caller now).response = .error .internalError ∧
    (completeGig g caller now).gig = g ∧
    (completeGig g caller now).payment = none ∧
    GigError.internalError ≠ GigError.forbidden ∧
    GigError.internalError ≠ GigError.invalidTransition := by
  have h1 : startGig g caller now = ⟨.error .internalError, g⟩ := by
    simp only [startGig, hworker]
  have h2 : completeGig g caller now = ⟨.error .internalError, g, none⟩ := by
    simp only [completeGig, hworker]
  rw [h1, h2]
  exact ⟨rfl, rfl, rfl, rfl, rfl, by decide, by decide⟩

/-- Witness for C10 at a concrete open gig with no worker. -/
theorem C10_null_worker_internal_error_witness :
    (startGig c10gig 5 0).response = .error .internalError ∧
    (startGig c10gig 5 0).gig = c10gig ∧
    (completeGig c10gig 5 0).response = .error .internalError ∧
    (completeGig c10gig 5 0).gig = c10gig ∧
    (completeGig c10gig 5 0).payment = none ∧
    GigError.internalError ≠ GigError.forbidden ∧
    GigError.internalError ≠ GigError.invalidTransition :=
  C10_null_worker_internal_error c10gig 5 0 rfl

/-- C4: after every successful creation `totalAmount = hourlyRate * duration`
holds, and any write through `save` that modifies `hourlyRate` or `duration`
re-establishes it via the pre save hook. -/
theorem C4_total_amount_recomputed (b : CreateGigBody) (storeId freshId : Nat) (g0 g : Gig)
    (newRate newDuration : Option ℚ)
    (hc : createGig b storeId freshId = .ok g0)
    (hm : (newRate.isSome || newDuration.isSome) = true) :
    g0.totalAmount = g0.hourlyRate * g0.duration ∧
    (updateGig g newRate newDuration).totalAmount =
      (updateGig g newRate newDuration).hourlyRate *
        (updateGig g newRate newDuration).duration := by
  constructor
  · unfold createGig at hc
    split at hc
    · split at hc
      · injection hc with h
        rw [← h]
        rfl
      · cases hc
    · cases hc
  · unfold updateGig gigPreSave
    rw [hm, if_pos rfl]
    rfl

/-- Witness for C4: a concrete successful creation followed by a write that
changes the hourly rate to 60. -/
theorem C4_total_amount_recomputed_witness :
    c4gig.totalAmount = c4gig.hourlyRate * c4gig.duration ∧
    (updateGig c4gig (some 60) none).totalAmount =
      (updateGig c4gig (some 60) none).hourlyRate *
        (updateGig c4gig (some 60) none).duration :=
  C4_total_amount_recomputed c4body 7 1 c4gig c4gig (some 60) none rfl rfl

theorem validate_false_of_bad (b : CreateGigBody) (h : specBadCreateInput b = true) :
    validateCreateGig b = false := by
  by_contra hv
  rw [Bool.not_eq_false] at hv
  unfold validateCreateGig at hv
  simp only [Bool.and_eq_true] at hv
  obtain ⟨⟨⟨⟨⟨⟨⟨⟨⟨ht, hd⟩, hcat⟩, ha⟩, hci⟩, hst⟩, hpi⟩, hstt⟩, hett⟩, hra⟩ := hv
  unfold specBadCreateInput at h
  simp only [Bool.or_eq_true] at h
  rcases h with (((((((((((h | h) | h) | h) | h) | h) | h) | h) | h) | h) | h) | h)
  · rw [Option.isNone_iff_eq_none] at h
    rw [h] at ht
    simp [validTitle] at ht
  · rw [Option.isNone_iff_eq_none] at h
    rw [h] at hd
    simp [validDescription] at hd
  · rw [Option.isNone_iff_eq_none] at h
    rw [h] at hcat
    simp [validCategory] at hcat
  · rw [Option.isNone_iff_eq_none] at h
    rw [h] at ha
    simp [validRequired] at ha
  · rw [Option.isNone_iff_eq_none] at h
    rw [h] at hci
    simp [validRequired] at hci
  · rw [Option.isNone_iff_eq_none] at h
    rw [h] at hst
    simp [validRequired] at hst
  · rw [Option.isNone_iff_eq_none] at h
    rw [h] at hpi
    simp [validRequired] at hpi
  · rw [Option.isNone_iff_eq_none] at h
    rw [h] at hstt
    simp at hstt
  · rw [Option.isNone_iff_eq_none] at h
    rw [h] at hett
    simp at hett
  · rw [Option.isNone_iff_eq_none] at h
    rw [h] at hra
    simp [validRate] at hra
  · cases hcase : b.category with
    | none =>
      rw [hcase] at hcat
      simp [validCategory] at hcat
    | some c =>
      rw [hcase] at h hcat
      simp only [Bool.not_eq_true'] at h
      simp only [validCategory] at hcat
      rw [h] at hcat
      cases hcat
  · cases hcase : b.hourlyRate with
    | none =>
      rw [hcase] at hra
      simp [validRate] at hra
    | some r =>
      rw [hcase] at h hra
      simp only [decide_eq_true_eq] at h
      simp only [validRate, decide_eq_true_eq] at hra
      exact absurd hra (not_le.mpr h)

/-- C9 (amended): `createGig` fails with `validationError` whenever a required
field is missing, the category is outside the enumerated set, the hourly rate
is below 50, or a time field is not a valid timestamp, and no gig is created;
the comparison `endTime > startTime` of the original claim is not checked by
the code (see the counterexample). -/
theorem C9_amended_validation_rules (b : CreateGigBody) (storeId freshId : Nat)
    (h : specBadCreateInput b = true) :
    createGig b storeId freshId = .error .validationError := by
  have hv : validateCreateGig b = false := validate_false_of_bad b h
  unfold createGig
  rw [hv]
  rfl

/-- Witness for the amended C9: a body whose hourly rate of 10 is below the
minimum of 50 is rejected with `validationError`. -/
theorem C9_amended_validation_rules_witness :
    specBadCreateInput c9wbody = true ∧
    createGig c9wbody 7 3 = .error .validationError :=
  ⟨by decide, C9_amended_validation_rules c9wbody 7 3 (by decide)⟩

/-- C9 (counterexample): a concrete body whose end time lies one hour before
its start time passes the whole validator chain and creates a gig -- with
duration -1 and total amount -50 -- instead of failing with a validation
error as the claim states. -/
theorem C9_counterexample :
    createGig c9body 7 3 = .ok c9gig ∧
    c9gig.startTime = 7200000 ∧
    c9gig.endTime = 3600000 ∧
    c9gig.duration = -1 ∧
    c9gig.totalAmount = -50 := by
  refine ⟨rfl, rfl, rfl, ?_, ?_⟩
  · have h : c9gig.duration = ((3600000 - 7200000 : Int) : ℚ) / (1000 * 60 * 60) := rfl
    rw [h]
    norm_num
  · have h : c9gig.totalAmount =
        (50 : ℚ) * (((3600000 - 7200000 : Int) : ℚ) / (1000 * 60 * 60)) := rfl
    rw [h]
    norm_num

theorem savePaymentNew_no_fee (p : Payment) (h : p.platformFee = none) :
    savePaymentNew p = .error () := by
  unfold savePaymentNew paymentValidate
  rw [h]
  simp

/-- C5 (counterexample): `createGig` spreads the request body into the new
document, so a request that injects the `worker` schema path creates a gig
that is reachable through the public `createGig` operation, has a non-null
worker, and still has status `open` -- violating the claimed invariant. -/
theorem C5_counterexample :
    createGig c5body 7 1 = .ok c5gig ∧
    c5gig.worker = some 42 ∧
    c5gig.status = .open' :=
  ⟨rfl, rfl, rfl⟩

/-- C5 (amended): for every gig reachable through the public operations from a
create request that does not inject the `worker` or `status` schema paths,
`gig.worker` is non-null exactly when the status is `assigned`, `in-progress`
or `completed`. -/
theorem C5_amended_worker_iff_status (g : Gig) (h : ReachableGig g) :
    (g.worker ≠ none ↔
      (g.status = .assigned ∨ g.status = .inProgress ∨ g.status = .completed)) := by
  induction h with
  | created b storeId freshId g hw hs hok =>
    unfold createGig at hok
    split at hok
    · split at hok
      · injection hok with hg
        rw [← hg]
        simp [calculateTotalAmount, hw, hs]
      · cases hok
    · cases hok
  | applied g w m now i hg ih =>
    have hwst : (applyForGig g w m now i).gig.worker = g.worker ∧
        (applyForGig g w m now i).gig.status = g.status := by
      unfold applyForGig
      split
      · exact ⟨rfl, rfl⟩
      · split
        · exact ⟨rfl, rfl⟩
        · split
          · exact ⟨rfl, rfl⟩
          · split
            · exact ⟨rfl, rfl⟩
            · exact ⟨rfl, rfl⟩
    rw [hwst.1, hwst.2]
    exact ih
  | resolved g aid caller act now hg ih =>
    unfold resolveApplication
    split
    · exact ih
    · split
      · exact ih
      · split
        · simp
        · exact ih
  | started g caller now hg ih =>
    unfold startGig
    split
    · exact ih
    · rename_i w heq
      split
      · exact ih
      · split
        · exact ih
        · simp [heq]
  | completedStep g caller now hg ih =>
    unfold completeGig
    split
    · exact ih
    · rename_i w heq
      split
      · exact ih
      · split
        · exact ih
        · simp [savePaymentNew_no_fee, heq]

/-- Witness for the amended C5: the gig produced by a clean concrete create
request is reachable and satisfies the worker/status linkage. -/
theorem C5_amended_worker_iff_status_witness :
    (c5okgig.worker ≠ none ↔
      (c5okgig.status = .assigned ∨ c5okgig.status = .inProgress ∨
        c5okgig.status = .completed)) :=
  C5_amended_worker_iff_status c5okgig
    (ReachableGig.created c5okbody 7 2 c5okgig rfl rfl rfl)
